import Mathlib

/-!
Verification of the Joy Girl relay service (src/app.py).

The service keeps a bounded in-memory mailbox of relay records
(`recent_messages`, capped at `MAX_MESSAGES = 20`), a process-wide
`waiting_for_reply` flag, and a handful of HTTP handlers.  We embed the
Python code shallowly: global mutable state becomes an explicit
`ServerState`, network calls become oracle functions supplied by the
environment, machine behaviour such as Python's negative-slice semantics
is modelled explicitly.
-/

-- ===== Definitions (shallow embedding of src/app.py) =====

/-- One stored relay record, mirroring the dict built in
`telegram_webhook` (`msg_for_esp32`). -/
structure RelayRecord where
  id : Int
  text : String
  from_user : String
  timestamp : String
  response : String
  type : String
  deriving DecidableEq

/-- The process-wide mutable state: `recent_messages` and
`waiting_for_reply`. -/
structure ServerState where
  recent_messages : List RelayRecord
  waiting_for_reply : Bool
  deriving DecidableEq

def MAX_MESSAGES : Nat := 20

/-- `recent_messages.append(msg)` followed by
`if len(recent_messages) > MAX_MESSAGES: recent_messages.pop(0)`. -/
def mbAppend (msgs : List RelayRecord) (r : RelayRecord) : List RelayRecord :=
  if (msgs ++ [r]).length > MAX_MESSAGES then (msgs ++ [r]).tail else msgs ++ [r]

/-- Python slice `xs[k:]` for a possibly negative integer index `k`:
a negative start counts from the end (clamped at 0), a non-negative
start drops that many elements. -/
def pySliceFrom {α : Type} (k : Int) (xs : List α) : List α :=
  if k < 0 then xs.drop (xs.length - (-k).toNat) else xs.drop k.toNat

/-- Response shape of `GET /messages`. -/
structure MessagesResp where
  messages : List RelayRecord
  count : Nat
  total : Nat
  waiting : Bool
  deriving DecidableEq

/-- `GET /messages` handler: filter by `id > since_id`, then
`filtered[-limit:] if filtered else []`. -/
def get_messages (st : ServerState) (limit : Int := 5) (since_id : Int := 0) :
    MessagesResp :=
  let filtered := st.recent_messages.filter (fun m => since_id < m.id)
  let messages := if filtered.isEmpty then [] else pySliceFrom (-limit) filtered
  { messages := messages
    count := messages.length
    total := st.recent_messages.length
    waiting := st.waiting_for_reply }

/-- `GET /messages/latest` handler. -/
def get_latest_message (st : ServerState) : Option RelayRecord :=
  st.recent_messages.getLast?

/-- `DELETE /messages` handler: `recent_messages.clear()`; the waiting
flag is untouched. -/
def clear_messages (st : ServerState) : ServerState × String :=
  ({ st with recent_messages := [] }, "cleared")

/-- A sample record used for concrete instantiations. -/
def sampleRecord : RelayRecord :=
  { id := 1, text := "hi", from_user := "Alice", timestamp := "t0"
    response := "hello!", type := "text" }

/-- The query contract for a positive `limit`: at most `limit` records,
all with `id > since_id`, and exactly the tail (most recent matches, in
insertion order) of the filtered sequence. -/
def QuerySpec (st : ServerState) (limit since_id : Int) : Prop :=
  (get_messages st limit since_id).messages.length ≤ limit.toNat ∧
  (∀ m ∈ (get_messages st limit since_id).messages, since_id < m.id) ∧
  (get_messages st limit since_id).messages =
    (st.recent_messages.filter (fun m => since_id < m.id)).drop
      ((st.recent_messages.filter (fun m => since_id < m.id)).length - limit.toNat)

/-- Python `str.split()` (no separator): split on runs of whitespace,
discarding empty pieces.  `acc` accumulates the current word in reverse. -/
def pySplitAux : List Char → List Char → List String
  | [], acc => if acc.isEmpty then [] else [String.mk acc.reverse]
  | c :: cs, acc =>
    if c.isWhitespace then
      if acc.isEmpty then pySplitAux cs []
      else String.mk acc.reverse :: pySplitAux cs []
    else pySplitAux cs (c :: acc)

def pySplit (s : String) : List String := pySplitAux s.data []

/-- Joining a list of words with single spaces, as the concatenation
`current_chunk += (" " if current_chunk else "") + word` produces. -/
def joinWords : List String → String
  | [] => ""
  | [w] => w
  | w :: ws => w ++ " " ++ joinWords ws

/-- The loop of `chunk_text`: `current` is `current_chunk`, `chunks` the
accumulated output list. -/
def chunkLoop (maxChunkSize : Nat) : List String → String → List String → List String
  | [], current, chunks => if current = "" then chunks else chunks ++ [current]
  | w :: ws, current, chunks =>
    if current.length + w.length + 1 ≤ maxChunkSize then
      chunkLoop maxChunkSize ws (if current = "" then w else current ++ " " ++ w) chunks
    else
      chunkLoop maxChunkSize ws w (if current = "" then chunks else chunks ++ [current])

/-- `chunk_text(text, max_chunk_size=120)` from the source. -/
def chunk_text (text : String) (maxChunkSize : Nat := 120) : List String :=
  chunkLoop maxChunkSize (pySplit text) "" []

/-- Word-level mirror of `chunkLoop`: the current chunk is kept as the
list of words it was built from. -/
def chunkWordsLoop (maxChunkSize : Nat) : List String → List String → List (List String)
  | [], cw => if cw = [] then [] else [cw]
  | w :: ws, cw =>
    if (joinWords cw).length + w.length + 1 ≤ maxChunkSize then
      chunkWordsLoop maxChunkSize ws (cw ++ [w])
    else if cw = [] then chunkWordsLoop maxChunkSize ws [w]
    else cw :: chunkWordsLoop maxChunkSize ws [w]

/-- All whitespace-separated words of `text` have length at most `n`. -/
def AllWordsFit (text : String) (n : Nat) : Prop :=
  ∀ w ∈ pySplit text, w.length ≤ n

/-- The chunking contract at limit 120: every chunk fits in 120
characters; the chunks are word-bounded (each chunk is the single-space
join of a nonempty group of consecutive words, and the groups partition
the word sequence in order); joining the chunks with single spaces
restores the whitespace-normalized original text. -/
def ChunkSpec (text : String) : Prop :=
  (∀ c ∈ chunk_text text 120, c.length ≤ 120) ∧
  (∃ groups : List (List String),
      groups.flatten = pySplit text ∧ (∀ g ∈ groups, g ≠ []) ∧
      chunk_text text 120 = groups.map joinWords) ∧
  joinWords (chunk_text text 120) = joinWords (pySplit text)

/-- A single 121-character word. -/
def longWord : String := String.mk (List.replicate 121 'a')

/-- Outcome of one outbound HTTP call as seen by the caller: an HTTP
response with a status code and (parsed) completion content, or a raised
transport exception. -/
inductive CallOutcome where
  | http (status : Nat) (content : String)
  | exn
  deriving DecidableEq

/-- `get_ai_response`: checks `DEEPSEEK_API_KEY`, issues exactly one
provider call (the `oracle` maps the index of each call the function
would make to its network outcome; the code performs only call 0), and
maps the outcome to a returned string.  Total by construction: the
source wraps everything in `try/except` and always returns a string. -/
def get_ai_response (prompt : String) (max_tokens : Nat) (apiKey : String)
    (oracle : Nat → CallOutcome) : String :=
  if apiKey = "" then "Error: DEEPSEEK_API_KEY not set"
  else
    match oracle 0 with
    | CallOutcome.http status content =>
        if status = 200 then content.trim else "Sorry, my brain glitched!"
    | CallOutcome.exn => "Oops! Connection error!"

/-- An environment in which the first call fails (HTTP 500) and a second
call, were one made, would succeed with the text "fallback reply". -/
def oracleFallback : Nat → CallOutcome :=
  fun n => if n = 0 then CallOutcome.http 500 "" else CallOutcome.http 200 "fallback reply"

/-- There is no fallback provider: with the API key set, the result is a
function of the first call's outcome alone, and a failing first call
yields the fixed degraded string for its failure kind. -/
def SingleProviderSpec (prompt : String) (max_tokens : Nat) (apiKey : String)
    (oracle oracle2 : Nat → CallOutcome) : Prop :=
  get_ai_response prompt max_tokens apiKey oracle
    = get_ai_response prompt max_tokens apiKey oracle2 ∧
  (∀ status content, oracle 0 = CallOutcome.http status content → status ≠ 200 →
      get_ai_response prompt max_tokens apiKey oracle = "Sorry, my brain glitched!") ∧
  (oracle 0 = CallOutcome.exn →
      get_ai_response prompt max_tokens apiKey oracle = "Oops! Connection error!")

/-- The responder's total input/output contract: no key → fixed error
string; HTTP 200 → trimmed completion text; non-200 → fixed degraded
string; transport failure → fixed degraded string. -/
def ResponderTotalSpec (prompt : String) (max_tokens : Nat) (apiKey : String)
    (oracle : Nat → CallOutcome) : Prop :=
  (apiKey = "" →
      get_ai_response prompt max_tokens apiKey oracle = "Error: DEEPSEEK_API_KEY not set") ∧
  (∀ content, apiKey ≠ "" → oracle 0 = CallOutcome.http 200 content →
      get_ai_response prompt max_tokens apiKey oracle = content.trim) ∧
  (∀ status content, apiKey ≠ "" → status ≠ 200 →
      oracle 0 = CallOutcome.http status content →
      get_ai_response prompt max_tokens apiKey oracle = "Sorry, my brain glitched!") ∧
  (apiKey ≠ "" → oracle 0 = CallOutcome.exn →
      get_ai_response prompt max_tokens apiKey oracle = "Oops! Connection error!")

/-- The fixed notification text sent by `send_notification`. -/
def notifyMessage : String :=
  "🌸 <b>Joy Girl detected you!</b>\n\nReply to this message to chat!\nYou can send text or voice message.\n\n💡 Your message will appear on Joy Girl\x27s OLED screen!"

/-- `send_telegram_message`: returns `false` when the bot token is
unset, otherwise the platform's delivery outcome (status 200 test);
never raises (the source catches every exception and returns `False`). -/
def send_telegram_message (botToken : String) (sendOracle : String → String → Bool)
    (chat_id text : String) : Bool :=
  if botToken = "" then false else sendOracle chat_id text

/-- Response of `POST /telegram/notify`: a raised `HTTPException`, the
success body, or the failure body. -/
inductive NotifyResp where
  | httpError (status : Nat) (detail : String)
  | ok (message timestamp : String)
  | fail (error : String)
  deriving DecidableEq

/-- `send_notification` handler: credential checks, one outbound
delivery, and the `waiting_for_reply` update.  Returns the response
paired with the new value of the flag. -/
def send_notification (botToken chatIdCfg : String)
    (sendOracle : String → String → Bool) (now : String) (waiting : Bool) :
    NotifyResp × Bool :=
  if botToken = "" then (NotifyResp.httpError 500 "TELEGRAM_BOT_TOKEN not set", waiting)
  else if chatIdCfg = "" then (NotifyResp.httpError 500 "TELEGRAM_CHAT_ID not set", waiting)
  else
    if send_telegram_message botToken sendOracle chatIdCfg notifyMessage then
      (NotifyResp.ok "Notification sent!" now, true)
    else (NotifyResp.fail "Failed to send", waiting)

/-- The notify contract: server error (500) on a missing credential,
`ok` with `waiting := true` exactly on delivery success, failure body
with `waiting` unchanged on delivery failure. -/
def NotifySpec (botToken chatIdCfg : String) (sendOracle : String → String → Bool)
    (now : String) (waiting : Bool) : Prop :=
  (botToken = "" →
      send_notification botToken chatIdCfg sendOracle now waiting
        = (NotifyResp.httpError 500 "TELEGRAM_BOT_TOKEN not set", waiting)) ∧
  (botToken ≠ "" → chatIdCfg = "" →
      send_notification botToken chatIdCfg sendOracle now waiting
        = (NotifyResp.httpError 500 "TELEGRAM_CHAT_ID not set", waiting)) ∧
  (botToken ≠ "" → chatIdCfg ≠ "" → sendOracle chatIdCfg notifyMessage = true →
      send_notification botToken chatIdCfg sendOracle now waiting
        = (NotifyResp.ok "Notification sent!" now, true)) ∧
  (botToken ≠ "" → chatIdCfg ≠ "" → sendOracle chatIdCfg notifyMessage = false →
      send_notification botToken chatIdCfg sendOracle now waiting
        = (NotifyResp.fail "Failed to send", waiting))

/-- Python `s.startswith(pre)`. -/
def pyStartsWith (s pre : String) : Bool := pre.data.isPrefixOf s.data

/-- Environment-provided configuration (environment variables). -/
structure Config where
  DEEPSEEK_API_KEY : String
  TELEGRAM_BOT_TOKEN : String
  OPENAI_API_KEY : String

/-- Network environment of one webhook request: the wall clock, the AI
provider call oracle, the outbound send oracle, and the voice
download/transcription outcomes. -/
structure WebhookEnv where
  now : String
  aiOracle : Nat → CallOutcome
  sendOracle : String → String → Bool
  downloadResult : String → Except String String
  whisperResult : String → Option String

/-- `transcribe_audio`: placeholder text when no key is configured or
the provider call fails (the source catches every exception), otherwise
the transcription; total — it never raises. -/
def transcribe_audio (openai_key : String) (outcome : Option String) : String :=
  if openai_key = "" then "Hello Joy Girl"
  else
    match outcome with
    | some t => t
    | none => "Hello Joy Girl"

/-- `voice` payload object; a missing `file_id` key makes the source's
`voice["file_id"]` raise. -/
structure TgVoice where
  file_id : Option String
  deriving DecidableEq

/-- The inbound `message` object.  `chat_id` stands for
`message["chat"]["id"]` (missing ⇒ the access raises); `message_id` and
`first_name` are read with `.get` defaults. -/
structure TgMessage where
  chat_id : Option Int
  first_name : Option String
  message_id : Option Int
  text : Option String
  voice : Option TgVoice
  deriving DecidableEq

/-- The decoded webhook update. -/
structure TgUpdate where
  message : Option TgMessage
  deriving DecidableEq

/-- Status outcomes of the webhook handler. -/
inductive WebhookResp where
  | ignored
  | command
  | unsupported
  | ok (response : String)
  | error (detail : String)
  deriving DecidableEq

/-- Result of one webhook request: the JSON-level response, the new
store and flag, and the effect logs (prompts sent to the AI responder,
messages sent out via Telegram). -/
structure WebhookResult where
  resp : WebhookResp
  recent_messages : List RelayRecord
  waiting_for_reply : Bool
  aiCalls : List String
  sends : List (String × String)
  deriving DecidableEq

/-- The `/start` greeting sent by the command branch. -/
def startGreeting : String :=
  "🌸 Hi! I\x27m Joy Girl! Wave your hand over the IR sensor to chat!"

/-- The tail of the voice path once `user_text` has been determined:
identical to the text normal path but with the two progress sends and
`type := "voice"`. -/
def webhookVoiceOk (cfg : Config) (env : WebhookEnv) (st : ServerState)
    (message : TgMessage) (c : Int) (user_text : String) : WebhookResult :=
  { resp := WebhookResp.ok
      (get_ai_response user_text 60 cfg.DEEPSEEK_API_KEY env.aiOracle),
    recent_messages := mbAppend st.recent_messages
      { id := message.message_id.getD 0,
        text := user_text,
        from_user := message.first_name.getD "User",
        timestamp := env.now,
        response := get_ai_response user_text 60 cfg.DEEPSEEK_API_KEY env.aiOracle,
        type := "voice" },
    waiting_for_reply := false,
    aiCalls := [user_text],
    sends := [(toString c, "🎧 Processing voice..."),
      (toString c, "📝 You said: \"" ++ user_text ++ "\""),
      (toString c, "🌸 " ++ get_ai_response user_text 60 cfg.DEEPSEEK_API_KEY env.aiOracle)] }

/-- The body of `telegram_webhook` inside its `try`: `Except.error`
models an exception escaping to the top-level handler.  The raise
points are the request-body JSON parse, the `message["chat"]["id"]`
access and the `voice["file_id"]` access; everything downstream is
total (`get_ai_response`, `send_telegram_message` and
`transcribe_audio` catch their own failures). -/
def webhookBody (cfg : Config) (env : WebhookEnv) (st : ServerState)
    (body : Except String TgUpdate) : Except String WebhookResult :=
  match body with
  | Except.error e => Except.error e
  | Except.ok update =>
    match update.message with
    | none =>
      Except.ok
        { resp := WebhookResp.ignored,
          recent_messages := st.recent_messages,
          waiting_for_reply := st.waiting_for_reply, aiCalls := [], sends := [] }
    | some message =>
      match message.chat_id with
      | none => Except.error "KeyError: chat"
      | some c =>
        match message.text with
        | some user_text =>
          if pyStartsWith user_text "/" then
            Except.ok
              { resp := WebhookResp.command,
                recent_messages := st.recent_messages,
                waiting_for_reply := st.waiting_for_reply,
                aiCalls := [],
                sends := if user_text = "/start"
                  then [(toString c, startGreeting)] else [] }
          else
            Except.ok
              { resp := WebhookResp.ok
                  (get_ai_response user_text 60 cfg.DEEPSEEK_API_KEY env.aiOracle),
                recent_messages := mbAppend st.recent_messages
                  { id := message.message_id.getD 0,
                    text := user_text,
                    from_user := message.first_name.getD "User",
                    timestamp := env.now,
                    response := get_ai_response user_text 60 cfg.DEEPSEEK_API_KEY env.aiOracle,
                    type := "text" },
                waiting_for_reply := false,
                aiCalls := [user_text],
                sends := [(toString c,
                  "🌸 " ++ get_ai_response user_text 60 cfg.DEEPSEEK_API_KEY env.aiOracle)] }
        | none =>
          match message.voice with
          | some voice =>
            match voice.file_id with
            | none => Except.error "KeyError: file_id"
            | some f =>
              match env.downloadResult f with
              | Except.ok audio =>
                Except.ok (webhookVoiceOk cfg env st message c
                  (transcribe_audio cfg.OPENAI_API_KEY (env.whisperResult audio)))
              | Except.error _ =>
                Except.ok (webhookVoiceOk cfg env st message c
                  "I couldn\x27t hear clearly")
          | none =>
            Except.ok
              { resp := WebhookResp.unsupported,
                recent_messages := st.recent_messages,
                waiting_for_reply := st.waiting_for_reply, aiCalls := [], sends := [] }

/-- The full handler: the top-level `try/except` converting any raised
exception into a `status: error` response (state unchanged, no effects
performed before the raise points). -/
def telegram_webhook (cfg : Config) (env : WebhookEnv) (st : ServerState)
    (body : Except String TgUpdate) : WebhookResult :=
  match webhookBody cfg env st body with
  | Except.ok r => r
  | Except.error e =>
    { resp := WebhookResp.error e,
      recent_messages := st.recent_messages,
      waiting_for_reply := st.waiting_for_reply, aiCalls := [], sends := [] }

/-- Fixed configuration used for concrete instantiations. -/
def cfgW : Config :=
  { DEEPSEEK_API_KEY := "k", TELEGRAM_BOT_TOKEN := "tok", OPENAI_API_KEY := "" }

/-- Fixed environment used for concrete instantiations. -/
def envW : WebhookEnv :=
  { now := "2024-01-01T00:00:00",
    aiOracle := fun _ => CallOutcome.http 200 "Yay!",
    sendOracle := fun _ _ => true,
    downloadResult := fun _ => Except.ok "audio",
    whisperResult := fun _ => some "Hello Joy Girl" }

/-- Fixed starting state used for concrete instantiations. -/
def stW : ServerState := { recent_messages := [], waiting_for_reply := true }

/-- A plain text message payload. -/
def msgTextW : TgMessage :=
  { chat_id := some 1, first_name := some "Alice", message_id := some 7,
    text := some "hi", voice := none }

/-- A `/start` command payload. -/
def msgCmdW : TgMessage :=
  { chat_id := some 1, first_name := none, message_id := none,
    text := some "/start", voice := none }

/-- Normal text path contract: status `ok` carrying the AI reply,
exactly one appended record whose `id` is the payload's `message_id`,
and the waiting flag reset to false. -/
def C6Spec (cfg : Config) (env : WebhookEnv) (st : ServerState) (m : TgMessage)
    (mid : Int) (t : String) : Prop :=
  (telegram_webhook cfg env st (Except.ok { message := some m })).resp
    = WebhookResp.ok (get_ai_response t 60 cfg.DEEPSEEK_API_KEY env.aiOracle) ∧
  (telegram_webhook cfg env st (Except.ok { message := some m })).recent_messages
    = mbAppend st.recent_messages
      { id := mid, text := t, from_user := m.first_name.getD "User",
        timestamp := env.now,
        response := get_ai_response t 60 cfg.DEEPSEEK_API_KEY env.aiOracle,
        type := "text" } ∧
  (telegram_webhook cfg env st (Except.ok { message := some m })).waiting_for_reply
    = false

/-- Command path contract: status `command`, no AI call, no record
appended, flag untouched, and the greeting is sent exactly when the
command is the recognized `/start`. -/
def C7Spec (cfg : Config) (env : WebhookEnv) (st : ServerState) (m : TgMessage)
    (c : Int) (t : String) : Prop :=
  (telegram_webhook cfg env st (Except.ok { message := some m })).resp
    = WebhookResp.command ∧
  (telegram_webhook cfg env st (Except.ok { message := some m })).aiCalls = [] ∧
  (telegram_webhook cfg env st (Except.ok { message := some m })).recent_messages
    = st.recent_messages ∧
  (telegram_webhook cfg env st (Except.ok { message := some m })).waiting_for_reply
    = st.waiting_for_reply ∧
  (telegram_webhook cfg env st (Except.ok { message := some m })).sends
    = (if t = "/start" then [(toString c, startGreeting)] else [])

/-- Total-boundary contract of the webhook handler: a raised exception
is converted into a `status: error` response carrying the diagnostic
string, and every non-raising run ends in one of the statuses
`ignored`, `command`, `unsupported` or `ok`. -/
def C8Spec (cfg : Config) (env : WebhookEnv) (st : ServerState)
    (body : Except String TgUpdate) : Prop :=
  (∀ e, webhookBody cfg env st body = Except.error e →
    (telegram_webhook cfg env st body).resp = WebhookResp.error e) ∧
  (∀ res, webhookBody cfg env st body = Except.ok res →
    telegram_webhook cfg env st body = res ∧
    (res.resp = WebhookResp.ignored ∨ res.resp = WebhookResp.command ∨
      res.resp = WebhookResp.unsupported ∨ ∃ s, res.resp = WebhookResp.ok s))

-- ===== Lemmas and claim theorems =====

lemma mbAppend_length_le (s : List RelayRecord) (r : RelayRecord)
    (h : s.length ≤ MAX_MESSAGES) : (mbAppend s r).length ≤ MAX_MESSAGES := by
  unfold mbAppend
  split
  · simp only [List.length_tail, List.length_append, List.length_cons, List.length_nil]
    omega
  · next hle =>
    simp only [List.length_append, List.length_cons, List.length_nil, not_lt] at hle ⊢
    omega

lemma foldl_mbAppend_drop (rs : List RelayRecord) :
    ∀ s : List RelayRecord, s.length ≤ MAX_MESSAGES →
      List.foldl mbAppend s rs = (s ++ rs).drop ((s ++ rs).length - MAX_MESSAGES) := by
  induction rs with
  | nil =>
    intro s h
    simp only [List.foldl_nil, List.append_nil]
    rw [Nat.sub_eq_zero_of_le h, List.drop_zero]
  | cons r rs ih =>
    intro s h
    rw [List.foldl_cons, ih _ (mbAppend_length_le s r h)]
    unfold mbAppend
    split
    · next hgt =>
      have hlen : s.length = MAX_MESSAGES := by
        simp only [List.length_append, List.length_cons, List.length_nil] at hgt
        omega
      have hs : s ≠ [] := by
        intro e
        rw [e] at hlen
        simp [MAX_MESSAGES] at hlen
      obtain ⟨a, s', rfl⟩ := List.exists_cons_of_ne_nil hs
      have htail : ((a :: s') ++ [r]).tail = s' ++ [r] := rfl
      rw [htail]
      simp only [List.length_cons] at hlen
      have h1 : ((s' ++ [r]) ++ rs).length - MAX_MESSAGES = rs.length := by
        simp only [List.length_append, List.length_cons, List.length_nil]
        omega
      have h2 : ((a :: s') ++ r :: rs).length - MAX_MESSAGES = rs.length + 1 := by
        simp only [List.length_append, List.length_cons]
        omega
      rw [h1, h2]
      have h3 : (a :: s') ++ r :: rs = a :: (s' ++ r :: rs) := rfl
      rw [h3, List.drop_succ_cons]
      congr 1
      simp [List.append_assoc]
    · simp [List.append_assoc]

/-- C1: starting from the empty store, any sequence of appends leaves at
most `MAX_MESSAGES` records, and the surviving records are exactly the
most recently appended ones, in their original relative order (the tail
of the append sequence; oldest evicted first). -/
theorem C1_mailbox_bounded_fifo (rs : List RelayRecord) :
    (List.foldl mbAppend [] rs).length ≤ MAX_MESSAGES ∧
    List.foldl mbAppend [] rs = rs.drop (rs.length - MAX_MESSAGES) := by
  have h := foldl_mbAppend_drop rs [] (by simp)
  simp only [List.nil_append] at h
  refine ⟨?_, h⟩
  rw [h, List.length_drop]
  omega

/-- C2 counterexample: with `limit = 0` (claim instance N = 0) the code
computes `filtered[-0:] = filtered[0:]`, i.e. the whole filtered list,
so it returns 1 > 0 records. -/
theorem C2_counterexample :
    (get_messages { recent_messages := [sampleRecord], waiting_for_reply := false }
        0 0).messages = [sampleRecord] ∧
    ¬ (get_messages { recent_messages := [sampleRecord], waiting_for_reply := false }
        0 0).messages.length ≤ 0 := by
  constructor
  · rfl
  · decide

/-- C2 (amended to positive limits): for every state and every
`limit ≥ 1`, the query returns at most `limit` records, all with
`id > since_id`, and exactly the most recent qualifying records in
insertion order — the tail of the filtered sequence (empty when nothing
qualifies). -/
theorem C2_query_tail (st : ServerState) (limit since_id : Int)
    (hpos : 1 ≤ limit) : QuerySpec st limit since_id := by
  unfold QuerySpec get_messages
  simp only
  set f := st.recent_messages.filter (fun m => since_id < m.id) with hf
  have hslice : (if f.isEmpty then ([] : List RelayRecord) else pySliceFrom (-limit) f)
      = f.drop (f.length - limit.toNat) := by
    by_cases he : f.isEmpty
    · have : f = [] := List.isEmpty_iff.mp he
      simp [he, this]
    · have h1 : -limit < 0 := by omega
      rw [if_neg he]
      simp only [pySliceFrom, if_pos h1, neg_neg]
  rw [hslice]
  refine ⟨?_, ?_, rfl⟩
  · rw [List.length_drop]
    omega
  · intro m hm
    have hmf : m ∈ f := List.mem_of_mem_drop hm
    rw [hf, List.mem_filter] at hmf
    exact of_decide_eq_true hmf.2

theorem C2_query_tail_witness :
    (1 : Int) ≤ 1 ∧
    QuerySpec { recent_messages := [sampleRecord], waiting_for_reply := false } 1 0 :=
  ⟨le_refl 1, C2_query_tail _ 1 0 (le_refl 1)⟩

lemma joinWords_singleton (w : String) : joinWords [w] = w := rfl

lemma joinWords_cons (w : String) (ws : List String) (h : ws ≠ []) :
    joinWords (w :: ws) = w ++ " " ++ joinWords ws := by
  cases ws with
  | nil => exact absurd rfl h
  | cons a l => rfl

lemma joinWords_ne_empty (cw : List String) (h : cw ≠ []) (hw : ∀ w ∈ cw, w ≠ "") :
    joinWords cw ≠ "" := by
  cases cw with
  | nil => exact absurd rfl h
  | cons a l =>
    cases l with
    | nil => exact hw a (by simp)
    | cons b m =>
      rw [joinWords_cons a (b :: m) (by simp)]
      intro he
      have h2 := congrArg String.length he
      rw [String.length_append, String.length_append] at h2
      rw [show (" " : String).length = 1 from rfl,
        show ("" : String).length = 0 from rfl] at h2
      omega

lemma joinWords_append (a b : List String) (ha : a ≠ []) (hb : b ≠ []) :
    joinWords (a ++ b) = joinWords a ++ " " ++ joinWords b := by
  induction a with
  | nil => exact absurd rfl ha
  | cons x l ih =>
    cases l with
    | nil =>
      rw [List.singleton_append, joinWords_cons x b hb, joinWords_singleton]
    | cons y m =>
      rw [List.cons_append, joinWords_cons x ((y :: m) ++ b) (by simp),
        ih (by simp), joinWords_cons x (y :: m) (by simp)]
      simp [String.append_assoc]

lemma joinWords_concat (cw : List String) (w : String) (h : cw ≠ []) :
    joinWords (cw ++ [w]) = joinWords cw ++ " " ++ w := by
  rw [joinWords_append cw [w] h (by simp), joinWords_singleton]

lemma mk_reverse_ne_empty (acc : List Char) (h : ¬ acc.isEmpty = true) :
    String.mk acc.reverse ≠ "" := by
  intro he
  have hd : acc.reverse = [] := congrArg String.data he
  rw [List.reverse_eq_nil_iff] at hd
  rw [hd] at h
  exact h rfl

lemma pySplitAux_ne_empty (cs : List Char) :
    ∀ acc : List Char, ∀ w ∈ pySplitAux cs acc, w ≠ "" := by
  induction cs with
  | nil =>
    intro acc w hw
    simp only [pySplitAux] at hw
    split at hw
    · simp at hw
    · next hne =>
      simp at hw
      subst hw
      exact mk_reverse_ne_empty acc hne
  | cons c cs ih =>
    intro acc w hw
    simp only [pySplitAux] at hw
    split at hw
    · split at hw
      · exact ih [] w hw
      · next hne =>
        rcases List.mem_cons.mp hw with h | h
        · subst h
          exact mk_reverse_ne_empty acc hne
        · exact ih [] w h
    · exact ih (c :: acc) w hw

lemma chunkLoop_eq (maxSize : Nat) (ws : List String) :
    ∀ (cw : List String) (chunksAcc : List String),
      (∀ w ∈ ws, w ≠ "") → (∀ w ∈ cw, w ≠ "") →
      chunkLoop maxSize ws (joinWords cw) chunksAcc
        = chunksAcc ++ (chunkWordsLoop maxSize ws cw).map joinWords := by
  induction ws with
  | nil =>
    intro cw chunksAcc _ hcw
    by_cases hc : cw = []
    · subst hc
      simp [chunkLoop, chunkWordsLoop, joinWords]
    · have hne := joinWords_ne_empty cw hc hcw
      simp [chunkLoop, chunkWordsLoop, hc, hne]
  | cons w ws ih =>
    intro cw chunksAcc hws hcw
    have hw : w ≠ "" := hws w (List.mem_cons_self w ws)
    have hws' : ∀ x ∈ ws, x ≠ "" := fun x hx => hws x (List.mem_cons_of_mem w hx)
    have hsing : ∀ x ∈ [w], x ≠ "" := by
      intro x hx
      simp at hx
      subst hx
      exact hw
    simp only [chunkLoop, chunkWordsLoop]
    by_cases hcond : (joinWords cw).length + w.length + 1 ≤ maxSize
    · rw [if_pos hcond, if_pos hcond]
      by_cases hc : cw = []
      · subst hc
        have e1 : (if joinWords ([] : List String) = "" then w
            else joinWords [] ++ " " ++ w) = joinWords ([] ++ [w]) := by
          simp [joinWords]
        rw [e1]
        exact ih ([] ++ [w]) chunksAcc hws' (by simpa using hsing)
      · have hne := joinWords_ne_empty cw hc hcw
        have e1 : (if joinWords cw = "" then w else joinWords cw ++ " " ++ w)
            = joinWords (cw ++ [w]) := by
          rw [if_neg hne, joinWords_concat cw w hc]
        rw [e1]
        refine ih (cw ++ [w]) chunksAcc hws' ?_
        intro x hx
        rcases List.mem_append.mp hx with h | h
        · exact hcw x h
        · simp at h
          subst h
          exact hw
    · rw [if_neg hcond, if_neg hcond]
      by_cases hc : cw = []
      · subst hc
        rw [if_pos rfl]
        have e2 : (if joinWords ([] : List String) = "" then chunksAcc
            else chunksAcc ++ [joinWords []]) = chunksAcc := by
          simp [joinWords]
        rw [e2]
        have h5 := ih [w] chunksAcc hws' hsing
        simpa [joinWords] using h5
      · rw [if_neg hc]
        have hne := joinWords_ne_empty cw hc hcw
        have e2 : (if joinWords cw = "" then chunksAcc
            else chunksAcc ++ [joinWords cw]) = chunksAcc ++ [joinWords cw] :=
          if_neg hne
        rw [e2]
        have h5 := ih [w] (chunksAcc ++ [joinWords cw]) hws' hsing
        rw [joinWords_singleton] at h5
        rw [h5, List.map_cons]
        simp

lemma chunkWordsLoop_flatten (maxSize : Nat) (ws : List String) :
    ∀ cw : List String, (chunkWordsLoop maxSize ws cw).flatten = cw ++ ws := by
  induction ws with
  | nil =>
    intro cw
    by_cases hc : cw = [] <;> simp [chunkWordsLoop, hc]
  | cons w ws ih =>
    intro cw
    simp only [chunkWordsLoop]
    split
    · rw [ih (cw ++ [w])]
      simp
    · split
      · next hc =>
        rw [ih [w]]
        rw [hc]
        simp
      · rw [List.flatten_cons, ih [w]]
        simp

lemma chunkWordsLoop_ne_nil (maxSize : Nat) (ws : List String) :
    ∀ cw : List String, ∀ g ∈ chunkWordsLoop maxSize ws cw, g ≠ [] := by
  induction ws with
  | nil =>
    intro cw g hg
    simp only [chunkWordsLoop] at hg
    split at hg
    · simp at hg
    · next hc =>
      simp at hg
      subst hg
      exact hc
  | cons w ws ih =>
    intro cw g hg
    simp only [chunkWordsLoop] at hg
    split at hg
    · exact ih (cw ++ [w]) g hg
    · split at hg
      · exact ih [w] g hg
      · next hc =>
        rcases List.mem_cons.mp hg with h | h
        · subst h
          exact hc
        · exact ih [w] g h

lemma chunkWordsLoop_len (maxSize : Nat) (ws : List String) :
    ∀ cw : List String, (∀ w ∈ ws, w.length ≤ maxSize) →
      (joinWords cw).length ≤ maxSize →
      ∀ g ∈ chunkWordsLoop maxSize ws cw, (joinWords g).length ≤ maxSize := by
  induction ws with
  | nil =>
    intro cw _ hcw g hg
    simp only [chunkWordsLoop] at hg
    split at hg
    · simp at hg
    · simp at hg
      subst hg
      exact hcw
  | cons w ws ih =>
    intro cw hws hcw g hg
    have hw : w.length ≤ maxSize := hws w (List.mem_cons_self w ws)
    have hws' : ∀ x ∈ ws, x.length ≤ maxSize := fun x hx => hws x (List.mem_cons_of_mem w hx)
    simp only [chunkWordsLoop] at hg
    split at hg
    · next hcond =>
      refine ih (cw ++ [w]) hws' ?_ g hg
      by_cases hc : cw = []
      · subst hc
        simpa [joinWords] using hw
      · rw [joinWords_concat cw w hc]
        have hlen : (joinWords cw ++ " " ++ w).length
            = (joinWords cw).length + 1 + w.length := by
          rw [String.length_append, String.length_append,
            show (" " : String).length = 1 from rfl]
        omega
    · split at hg
      · exact ih [w] hws' (by simpa [joinWords] using hw) g hg
      · rcases List.mem_cons.mp hg with h | h
        · subst h
          exact hcw
        · exact ih [w] hws' (by simpa [joinWords] using hw) g h

lemma joinWords_map_join (groups : List (List String))
    (h : ∀ g ∈ groups, g ≠ []) :
    joinWords (groups.map joinWords) = joinWords groups.flatten := by
  induction groups with
  | nil => rfl
  | cons g gs ih =>
    cases gs with
    | nil => simp [joinWords_singleton]
    | cons g2 gs2 =>
      have hg : g ≠ [] := h g (by simp)
      have h' : ∀ x ∈ (g2 :: gs2), x ≠ [] := fun x hx => h x (by simp [hx])
      have hg2 : g2 ≠ [] := h' g2 (by simp)
      have hjoin_ne : (g2 :: gs2).flatten ≠ [] := by
        intro he
        rw [List.flatten_cons] at he
        exact hg2 (List.append_eq_nil.mp he).1
      rw [List.map_cons, joinWords_cons (joinWords g) _ (by simp), ih h']
      rw [show (g :: g2 :: gs2).flatten = g ++ (g2 :: gs2).flatten from rfl]
      rw [joinWords_append g _ hg hjoin_ne]

set_option maxRecDepth 4000 in
/-- C3 counterexample: on an input consisting of one 121-character word,
`chunk_text` emits that word as a chunk, which exceeds the
120-character limit. -/
theorem C3_counterexample :
    chunk_text longWord 120 = [longWord] ∧ 120 < longWord.length := by
  constructor
  · rfl
  · decide

/-- C3 (amended with the hypothesis that no single word exceeds the
limit, which the counterexample forces): `chunk_text` at limit 120
produces word-bounded chunks, none exceeding 120 characters, whose
single-space join equals the whitespace-normalized original text. -/
theorem C3_chunk_text (text : String) (h : AllWordsFit text 120) :
    ChunkSpec text := by
  have hne : ∀ w ∈ pySplit text, w ≠ "" := pySplitAux_ne_empty text.data []
  have heq : chunk_text text 120
      = (chunkWordsLoop 120 (pySplit text) []).map joinWords := by
    have h0 := chunkLoop_eq 120 (pySplit text) [] [] hne (by simp)
    simpa [chunk_text, joinWords] using h0
  refine ⟨?_, ⟨chunkWordsLoop 120 (pySplit text) [], ?_, ?_, heq⟩, ?_⟩
  · intro c hc
    rw [heq] at hc
    obtain ⟨g, hg, rfl⟩ := List.mem_map.mp hc
    exact chunkWordsLoop_len 120 (pySplit text) [] h (by simp [joinWords]) g hg
  · rw [chunkWordsLoop_flatten 120 (pySplit text) []]
    simp
  · exact chunkWordsLoop_ne_nil 120 (pySplit text) []
  · rw [heq, joinWords_map_join _ (chunkWordsLoop_ne_nil 120 (pySplit text) []),
      chunkWordsLoop_flatten 120 (pySplit text) []]
    simp

theorem C3_chunk_text_witness :
    AllWordsFit "hello tiny OLED world" 120 ∧ ChunkSpec "hello tiny OLED world" :=
  ⟨by unfold AllWordsFit; decide,
   C3_chunk_text "hello tiny OLED world" (by unfold AllWordsFit; decide)⟩

/-- C4 counterexample: the code has a single provider and makes a single
call; with a failing first call and a succeeding would-be second call it
returns the fixed degraded string, not the second call's text. -/
theorem C4_counterexample :
    get_ai_response "hi" 60 "key" oracleFallback = "Sorry, my brain glitched!" ∧
    "Sorry, my brain glitched!" ≠ "fallback reply" := by
  exact ⟨rfl, by decide⟩

/-- C4 (amended): the responder has exactly one provider and makes one
provider call per invocation; when that call fails it returns a fixed
degraded string ("Sorry, my brain glitched!" on a non-200 status,
"Oops! Connection error!" on a transport failure), and the result never
depends on the outcome any further provider call would have had. -/
theorem C4_single_provider (prompt : String) (max_tokens : Nat) (apiKey : String)
    (oracle oracle2 : Nat → CallOutcome) (hk : apiKey ≠ "")
    (h0 : oracle 0 = oracle2 0) :
    SingleProviderSpec prompt max_tokens apiKey oracle oracle2 := by
  unfold SingleProviderSpec get_ai_response
  refine ⟨by rw [if_neg hk, if_neg hk, h0], ?_, ?_⟩
  · intro status content he hne
    rw [if_neg hk, he]
    simp [hne]
  · intro he
    rw [if_neg hk, he]

theorem C4_single_provider_witness :
    "key" ≠ "" ∧ oracleFallback 0 = oracleFallback 0 ∧
    SingleProviderSpec "hi" 60 "key" oracleFallback oracleFallback :=
  ⟨by decide, rfl, C4_single_provider "hi" 60 "key" oracleFallback oracleFallback
    (by decide) rfl⟩

/-- C5: the responder never raises to its caller (it is a total function
into `String`): with no API key configured it returns the fixed error
string, when the provider call fails it returns a fixed degraded string,
and on HTTP success it returns the completion text trimmed of
surrounding whitespace. -/
theorem C5_responder_total (prompt : String) (max_tokens : Nat) (apiKey : String)
    (oracle : Nat → CallOutcome) :
    ResponderTotalSpec prompt max_tokens apiKey oracle := by
  unfold ResponderTotalSpec get_ai_response
  refine ⟨fun hk => by rw [if_pos hk], ?_, ?_, ?_⟩
  · intro content hk h0
    rw [if_neg hk, h0]
    simp
  · intro status content hk hs h0
    rw [if_neg hk, h0]
    simp [hs]
  · intro hk h0
    rw [if_neg hk, h0]

theorem C5_responder_total_witness :
    ResponderTotalSpec "hi" 60 "" (fun _ => CallOutcome.exn) :=
  C5_responder_total "hi" 60 "" (fun _ => CallOutcome.exn)

/-- C9: the notification trigger fails with a 500 server error when the
bot token or the recipient id is unset; otherwise it sets
`waiting_for_reply` to true exactly when the outbound delivery succeeds
(returning the ok body), and leaves the flag unchanged when delivery
fails (returning the failure body). -/
theorem C9_notify (botToken chatIdCfg : String)
    (sendOracle : String → String → Bool) (now : String) (waiting : Bool) :
    NotifySpec botToken chatIdCfg sendOracle now waiting := by
  unfold NotifySpec send_notification send_telegram_message
  refine ⟨fun h => by rw [if_pos h], ?_, ?_, ?_⟩
  · intro h1 h2
    rw [if_neg h1, if_pos h2]
  · intro h1 h2 h3
    rw [if_neg h1, if_neg h2, if_neg h1, h3, if_pos rfl]
  · intro h1 h2 h3
    rw [if_neg h1, if_neg h2, if_neg h1, h3]
    simp

theorem C9_notify_witness :
    NotifySpec "tok" "chat7" (fun _ _ => true) "2024-01-01T00:00:00" false :=
  C9_notify "tok" "chat7" (fun _ _ => true) "2024-01-01T00:00:00" false

/-- C10: `DELETE /messages` empties the store but leaves
`waiting_for_reply` unchanged: a subsequent query reports an empty
record list and zero total while still reporting the old waiting
state. -/
theorem C10_clear_frame (st : ServerState) (limit since_id : Int) :
    (clear_messages st).1.waiting_for_reply = st.waiting_for_reply ∧
    (get_messages (clear_messages st).1 limit since_id).messages = [] ∧
    (get_messages (clear_messages st).1 limit since_id).total = 0 ∧
    (get_messages (clear_messages st).1 limit since_id).waiting
      = st.waiting_for_reply := by
  refine ⟨rfl, ?_, rfl, rfl⟩
  simp [get_messages, clear_messages]

/-- C6: a webhook event carrying a plain text message (chat id present,
text not starting with "/") returns status `ok` with the AI reply text,
appends exactly one relay record whose id equals the payload's
`message_id`, and sets `waiting_for_reply` to false. -/
theorem C6_webhook_text_ok (cfg : Config) (env : WebhookEnv) (st : ServerState)
    (m : TgMessage) (c mid : Int) (t : String)
    (hc : m.chat_id = some c) (hmid : m.message_id = some mid)
    (ht : m.text = some t) (hcmd : pyStartsWith t "/" = false) :
    C6Spec cfg env st m mid t := by
  simp [C6Spec, telegram_webhook, webhookBody, hc, hmid, ht, hcmd]

theorem C6_webhook_text_ok_witness :
    msgTextW.chat_id = some 1 ∧ msgTextW.message_id = some 7 ∧
    msgTextW.text = some "hi" ∧ pyStartsWith "hi" "/" = false ∧
    C6Spec cfgW envW stW msgTextW 7 "hi" :=
  ⟨rfl, rfl, rfl, by decide,
   C6_webhook_text_ok cfgW envW stW msgTextW 1 7 "hi" rfl rfl rfl (by decide)⟩

/-- C7: a webhook event whose text starts with the command prefix "/"
terminates with status `command`, makes no AI responder call, appends no
relay record, and sends the static greeting only for the recognized
`/start` command. -/
theorem C7_webhook_command (cfg : Config) (env : WebhookEnv) (st : ServerState)
    (m : TgMessage) (c : Int) (t : String)
    (hc : m.chat_id = some c) (ht : m.text = some t)
    (hcmd : pyStartsWith t "/" = true) :
    C7Spec cfg env st m c t := by
  simp [C7Spec, telegram_webhook, webhookBody, hc, ht, hcmd]

theorem C7_webhook_command_witness :
    msgCmdW.chat_id = some 1 ∧ msgCmdW.text = some "/start" ∧
    pyStartsWith "/start" "/" = true ∧
    C7Spec cfgW envW stW msgCmdW 1 "/start" :=
  ⟨rfl, rfl, by decide,
   C7_webhook_command cfgW envW stW msgCmdW 1 "/start" rfl rfl (by decide)⟩

/-- C8: the webhook handler never raises past its boundary: it is a
total function whose result is the caught-exception `error` response
exactly when the body raises, and otherwise one of the statuses
`ignored`, `command`, `unsupported`, `ok`. -/
theorem C8_webhook_total (cfg : Config) (env : WebhookEnv) (st : ServerState)
    (body : Except String TgUpdate) : C8Spec cfg env st body := by
  constructor
  · intro e he
    unfold telegram_webhook
    rw [he]
  · intro res hres
    refine ⟨by unfold telegram_webhook; rw [hres], ?_⟩
    unfold webhookBody at hres
    split at hres
    · simp at hres
    · split at hres
      · injection hres with h
        subst h
        left
        rfl
      · split at hres
        · simp at hres
        · split at hres
          · split at hres
            · injection hres with h
              subst h
              right; left; rfl
            · injection hres with h
              subst h
              right; right; right
              exact ⟨_, rfl⟩
          · split at hres
            · split at hres
              · simp at hres
              · split at hres
                · injection hres with h
                  subst h
                  right; right; right
                  exact ⟨_, rfl⟩
                · injection hres with h
                  subst h
                  right; right; right
                  exact ⟨_, rfl⟩
            · injection hres with h
              subst h
              right; right; left; rfl

theorem C8_webhook_total_witness : C8Spec cfgW envW stW (Except.error "boom") :=
  C8_webhook_total cfgW envW stW (Except.error "boom")
